import Mathlib

/-!
Verification of the authentication and authorization subsystem of the
Lenny Media backend (src/auth.py, src/models.py, src/app.py), shallowly
embedded in Lean. JSON request bodies are modelled by an inductive value
type, the SQLAlchemy user table by a list of user records, and each Flask
route handler by a total function that either returns a response together
with the resulting store or signals a Python-level exception, which the
application error handler (app.py, internal_error) maps to a structured
500 response.
-/

/-- Python exception kinds that the modelled handlers can raise. -/
inductive PyExc where
  | attrError
  | typeError
  | keyError
  | dbError
deriving DecidableEq

/-- JSON values, as produced by request.get_json. -/
inductive Json where
  | null
  | bool (b : Bool)
  | num (n : Int)
  | str (s : String)
  | arr (elems : List Json)
  | obj (fields : List (String × Json))

/-- Python truthiness of a JSON value. -/
def truthy : Json → Bool
  | .null => false
  | .bool b => b
  | .num n => !(n == 0)
  | .str s => !(s == "")
  | .arr xs => !xs.isEmpty
  | .obj fs => !fs.isEmpty

/-- First binding of a key in a JSON object field list. -/
def jfind : List (String × Json) → String → Option Json
  | [], _ => none
  | (k, v) :: rest, key => if k == key then some v else jfind rest key

/-- Python dict.get with default None: missing keys give null. -/
def jlookup (fs : List (String × Json)) (key : String) : Json :=
  (jfind fs key).getD .null

/-- Python data.get(key) where data may be any JSON value: on a
non-object it raises AttributeError, as get_json can return any value. -/
def jget : Json → String → Except PyExc Json
  | .obj fs, key => .ok (jlookup fs key)
  | _, _ => .error .attrError

/-- Equality of a JSON value against a string literal, modelling the
Python comparison value == "literal". -/
def isStrEq (j : Json) (s : String) : Bool :=
  match j with
  | .str t => t == s
  | _ => false

/-- Python membership test key in data, which raises TypeError on
values that are not containers or strings. -/
def jHasKey (j : Json) (key : String) : Except PyExc Bool :=
  match j with
  | .obj fs => .ok ((jfind fs key).isSome)
  | .arr xs => .ok (xs.any (fun x => isStrEq x key))
  | .str s => .ok (hasSubstr key.data s.data)
  | _ => .error .typeError
where
  /-- Char list prefix test. -/
  startsWithChars : List Char → List Char → Bool
    | [], _ => true
    | _ :: _, [] => false
    | a :: la, b :: lb => a == b && startsWithChars la lb
  /-- Char list substring test, modelling the Python in operator on str. -/
  hasSubstr (needle : List Char) : List Char → Bool
    | [] => startsWithChars needle []
    | c :: rest => startsWithChars needle (c :: rest) || hasSubstr needle rest

/-- Python data[key] indexing: KeyError when missing, TypeError when the
value is not a dict. -/
def jIndex (j : Json) (key : String) : Except PyExc Json :=
  match j with
  | .obj fs =>
    match jfind fs key with
    | some v => .ok v
    | none => .error .keyError
  | _ => .error .typeError

/-- Values a SQLite driver can bind into a string column: primitives
only; dict and list parameters raise, and null violates NOT NULL. -/
def isBindable : Json → Bool
  | .str _ => true
  | .num _ => true
  | .bool _ => true
  | _ => false

/-- Bindable or null, for nullable columns. -/
def isBindableOpt : Json → Bool
  | .null => true
  | j => isBindable j

/-- Python str.upper restricted to ASCII, as used for role names. -/
def pyUpper (s : String) : String := String.mk (s.data.map Char.toUpper)

/-- Python str.strip whitespace predicate (ASCII whitespace). -/
def pyIsSpace (c : Char) : Bool :=
  c == ' ' || c == '\t' || c == '\n' || c == '\r' || c.toNat == 11 || c.toNat == 12

/-- Python str.strip on a character list. -/
def pyStrip (cs : List Char) : List Char :=
  (((cs.dropWhile pyIsSpace).reverse).dropWhile pyIsSpace).reverse

/-- Split a character list on a separator, like Python str.split. -/
def splitOn (sep : Char) : List Char → List (List Char)
  | [] => [[]]
  | c :: rest =>
    match splitOn sep rest with
    | [] => if c == sep then [[], []] else [[c]]
    | g :: gs => if c == sep then [] :: g :: gs else (c :: g) :: gs

/-- Split at the last at-sign, like Python rsplit with maxsplit 1. -/
def lastAtSplit : List Char → Option (List Char × List Char)
  | [] => none
  | c :: rest =>
    match lastAtSplit rest with
    | some (l, d) => some (c :: l, d)
    | none => if c == '@' then some ([], rest) else none

/-- All decompositions of a character list around an at-sign, giving the
candidate local and domain parts a backtracking regex engine would try. -/
def atSplits : List Char → List (List Char × List Char)
  | [] => []
  | c :: rest =>
    (if c == '@' then [(([] : List Char), rest)] else []) ++
      (atSplits rest).map (fun p => (c :: p.1, p.2))

/-- Characters of the atext class in the local-part alternative of the
email regex in is_valid_email (auth.py line 61). -/
def isAtext (c : Char) : Bool :=
  c.isAlphanum ||
    [33, 35, 36, 37, 38, 39, 42, 43, 47, 61, 63, 94, 95, 96, 123, 124, 125, 126, 45].contains c.toNat

/-- Characters allowed bare inside the quoted local-part alternative
(auth.py line 62). -/
def isQtext (c : Char) : Bool :=
  let n := c.toNat
  decide ((1 ≤ n ∧ n ≤ 8) ∨ n = 11 ∨ n = 12 ∨ (14 ≤ n ∧ n ≤ 31) ∨ n = 33 ∨
    (35 ≤ n ∧ n ≤ 91) ∨ (93 ≤ n ∧ n ≤ 127))

/-- Characters allowed after a backslash inside the quoted local part. -/
def isQEscapable (c : Char) : Bool :=
  let n := c.toNat
  decide ((1 ≤ n ∧ n ≤ 9) ∨ n = 11 ∨ n = 12 ∨ (14 ≤ n ∧ n ≤ 127))

/-- Dot-atom local part: one or more atext runs separated by single dots. -/
def dotAtomLocal (cs : List Char) : Bool :=
  (splitOn '.' cs).all (fun g => !g.isEmpty && g.all isAtext)

/-- Quoted content followed by the closing quote at the very end. -/
def quotedTail : List Char → Bool
  | [] => false
  | ['"'] => true
  | '\\' :: c :: rest => isQEscapable c && quotedTail rest
  | c :: rest => isQtext c && quotedTail rest

/-- Quoted local part: a double-quoted run of qtext or escaped characters. -/
def quotedLocal (cs : List Char) : Bool :=
  match cs with
  | '"' :: rest => quotedTail rest
  | _ => false

/-- One hostname label: alphanumeric at both ends, hyphens inside. -/
def labelOK (g : List Char) : Bool :=
  !g.isEmpty &&
    g.all (fun c => c.isAlphanum || c == '-') &&
    (match g.head? with | some c => c.isAlphanum | none => false) &&
    (match g.getLast? with | some c => c.isAlphanum | none => false)

/-- Hostname domain alternative: at least two dot-separated labels. -/
def domainPat (cs : List Char) : Bool :=
  let gs := splitOn '.' cs
  decide (2 ≤ gs.length) && gs.all labelOK

/-- One IPv4 octet as accepted by the regex alternative. -/
def octetMatch : List Char → Bool
  | [a] => a.isDigit
  | [a, b] => a.isDigit && b.isDigit
  | [a, b, c] =>
    (a == '2' && b == '5' && c.isDigit && c.toNat ≤ 53) ||
    (a == '2' && b.isDigit && b.toNat ≤ 52 && c.isDigit) ||
    ((a == '0' || a == '1') && b.isDigit && c.isDigit)
  | _ => false

/-- Bracketed IPv4 literal domain alternative. -/
def ipLiteral (cs : List Char) : Bool :=
  (cs.head? == some '[') && (cs.getLast? == some ']') &&
    (let mid := (cs.drop 1).dropLast
     let gs := splitOn '.' mid
     gs.length == 4 && gs.all octetMatch)

/-- Full anchored email regex of is_valid_email: some decomposition
around an at-sign has a matching local part and a matching domain. -/
def emailPatternMatch (cs : List Char) : Bool :=
  (atSplits cs).any (fun p =>
    (dotAtomLocal p.1 || quotedLocal p.1) && (domainPat p.2 || ipLiteral p.2))

/-- The trailing group of a dot-split, Python split dot index -1. -/
def tldOf (d : List Char) : List Char :=
  (splitOn '.' d).getLastD []

/-- Check sequence of is_valid_email (auth.py lines 54 to 101) on the
already stripped character list. -/
def isValidEmailCore (e : List Char) : Bool :=
  if 254 < e.length ∨ e.length < 6 then false
  else if !emailPatternMatch e then false
  else
    match lastAtSplit e with
    | none => false
    | some (l, d) =>
      if 64 < l.length then false
      else if 253 < d.length then false
      else if !d.contains '.' then false
      else if jHasKey.hasSubstr ['.', '.'] e then false
      else if d.head? == some '.' || d.getLast? == some '.' then false
      else if d.head? == some '-' || d.getLast? == some '-' then false
      else if (tldOf d).length < 2 then false
      else true

/-- Embedding of is_valid_email (auth.py lines 31 to 101): strip the
argument, then run the check sequence. -/
def isValidEmailChars (cs : List Char) : Bool :=
  isValidEmailCore (pyStrip cs)

/-- is_valid_email on a Lean string. -/
def is_valid_email (s : String) : Bool := isValidEmailChars s.data

/-- is_valid_email on a JSON value: the isinstance guard makes every
non-string argument invalid. -/
def isValidEmailJ : Json → Bool
  | .str s => is_valid_email s
  | _ => false

/-- Number of at-signs in a character list. -/
def atCount (cs : List Char) : Nat := (cs.filter (fun c => c == '@')).length

/-- Role enumeration from models.py (UserRole). -/
inductive UserRole where
  | ADMIN
  | PHOTOGRAPHER
  | STAFF
deriving DecidableEq

/-- Lowercase wire value of a role, Python role.value. -/
def UserRole.value : UserRole → String
  | .ADMIN => "admin"
  | .PHOTOGRAPHER => "photographer"
  | .STAFF => "staff"

/-- Lookup of an enum member by name, Python UserRole[name]. -/
def UserRole.fromName (s : String) : Option UserRole :=
  if s = "ADMIN" then some .ADMIN
  else if s = "PHOTOGRAPHER" then some .PHOTOGRAPHER
  else if s = "STAFF" then some .STAFF
  else none

/-- A row of the users table (models.py, class User). The password
column stores the hash. Profile columns hold whatever JSON value the
request supplied, subject to the bind check at commit time. -/
structure User where
  id : String
  email : String
  password : String
  full_name : Json
  role : UserRole
  phone : Json
  avatar_url : Json
  is_active : Bool
  last_login : Option Nat
  created_at : Nat
  updated_at : Nat

/-- The credential store: the users table as a list of rows. -/
abbrev Store := List User

/-- User.query.filter_by(email=e).first() for a string argument. -/
def findByEmail (st : Store) (e : String) : Option User :=
  List.find? (fun u => u.email == e) st

/-- filter_by(email=value) for an arbitrary JSON value: a non-string
parameter matches no row of the string column. -/
def findByEmailJ (st : Store) (j : Json) : Option User :=
  match j with
  | .str s => findByEmail st s
  | _ => none

/-- User.query.get(user_id). -/
def findById (st : Store) (i : String) : Option User :=
  List.find? (fun u => u.id == i) st

/-- User.query.filter_by(role=UserRole.ADMIN).first() is not None. -/
def adminExists (st : Store) : Bool :=
  List.any st (fun u => u.role == UserRole.ADMIN)

/-- Serialization User.as_dict (models.py lines 102 to 114): every
column except password, timestamps in isoformat. -/
def User.as_dict (u : User) : Json :=
  Json.obj [
    ("id", .str u.id),
    ("email", .str u.email),
    ("full_name", u.full_name),
    ("role", .str u.role.value),
    ("phone", u.phone),
    ("avatar_url", u.avatar_url),
    ("is_active", .bool u.is_active),
    ("last_login", match u.last_login with | some t => .str (toString t) | none => .null),
    ("created_at", .str (toString u.created_at)),
    ("updated_at", .str (toString u.updated_at))]

/-- The inline user dictionary returned by login and by
register_first_admin (auth.py lines 132 to 140 and 290 to 298). -/
def userProjection (u : User) : Json :=
  Json.obj [
    ("id", .str u.id),
    ("email", .str u.email),
    ("role", .str u.role.value),
    ("full_name", u.full_name),
    ("phone", u.phone),
    ("avatar_url", u.avatar_url),
    ("is_active", .bool u.is_active)]

/-- A stored row whose profile columns a SQLite commit accepted:
full_name bound as a primitive, phone and avatar primitive or null. -/
def WFUser (u : User) : Bool :=
  isBindable u.full_name && isBindableOpt u.phone && isBindableOpt u.avatar_url

/-- Well-formed store: every row committed through the bind check. -/
def WFStore (st : Store) : Bool := List.all st WFUser

/-- Modelled from the spec: the werkzeug password hasher
(generate_password_hash) is not part of src; per spec section 4.1 it is
a one-way function with verify defined by recompute and compare. The
salt is abstracted away so that hashing is deterministic and injective,
which preserves the round-trip and mismatch properties the claims use. -/
def pyHash (p : String) : String := "pbkdf2-sha256$" ++ p

/-- generate_password_hash applied to a JSON value: non-string
passwords raise before hashing. -/
def pyHashJ : Json → Except PyExc String
  | .str p => .ok (pyHash p)
  | _ => .error .attrError

/-- check_password_hash applied to a JSON password value. -/
def checkHashJ (h : String) : Json → Except PyExc Bool
  | .str p => .ok (h == pyHash p)
  | _ => .error .attrError

/-- Modelled from the spec: flask_jwt_extended token creation is not
part of src; per spec section 4.2 a token is a signed bundle of
subject, email and role claims, issued-at and expiry. The signature is
abstracted as the secret the token was signed with. -/
structure Token where
  sub : String
  email : String
  role : String
  iat : Nat
  exp : Nat
  sig : String
deriving DecidableEq

/-- Modelled from the spec: token issuance, create_access_token with
expires_delta in seconds. -/
def issueToken (secret sub email role : String) (now ttl : Nat) : Token :=
  { sub := sub, email := email, role := role, iat := now, exp := now + ttl, sig := secret }

/-- Outcome of token verification per spec section 4.2. -/
inductive VerifyResult where
  | ok (sub email role : String)
  | expired
  | invalidSignature
deriving DecidableEq

/-- Modelled from the spec: token verification checks the signature
byte-for-byte, then the expiry timestamp, with Expired distinguished
from InvalidSignature. -/
def verifyToken (secret : String) (t : Token) (now : Nat) : VerifyResult :=
  if t.sig ≠ secret then .invalidSignature
  else if t.exp ≤ now then .expired
  else .ok t.sub t.email t.role

/-- The server JWT signing secret, from configuration. -/
def serverSecret : String := "JWT-SECRET-KEY"

/-- Effect of a response on the access_token cookie. -/
inductive CookieEffect where
  | unchanged
  | set (t : Token)
  | cleared
deriving DecidableEq

/-- An HTTP response: status code, JSON body, cookie effect. -/
structure Resp where
  status : Nat
  body : Json
  cookie : CookieEffect

/-- The 401 body shared by the user-missing and wrong-password branches
of login (auth.py line 116). -/
def invalidCredResp : Resp :=
  { status := 401, body := Json.obj [("error", .str "Invalid email or password")],
    cookie := .unchanged }

/-- The 403 body of the role gate and of get_users. -/
def forbiddenBody : Json := Json.obj [("msg", .str "Forbidden: Access Denied")]

/-- Embedding of the role_required decorator (auth.py lines 18 to 29):
missing role claim or case-insensitive mismatch yields 403, a match
runs the wrapped handler, and a non-string role claim makes the upper
call raise. -/
def roleRequired (required : String) (claims : List (String × Json)) (inner : Resp) :
    Except PyExc Resp :=
  match jfind claims "role" with
  | none => .ok { status := 403, body := forbiddenBody, cookie := .unchanged }
  | some (.str r) =>
    if pyUpper r ≠ pyUpper required then
      .ok { status := 403, body := forbiddenBody, cookie := .unchanged }
    else .ok inner
  | some _ => .error .attrError

/-- Embedding of the login route (auth.py lines 104 to 155). -/
def login (now : Nat) (st : Store) (body : Json) : Except PyExc (Resp × Store) :=
  match body with
  | .obj fs =>
    let email := jlookup fs "email"
    let password := jlookup fs "password"
    if !truthy email || !truthy password then
      .ok ({ status := 400,
             body := Json.obj [("error", .str "Email and password are required")],
             cookie := .unchanged }, st)
    else
      match findByEmailJ st email with
      | none => .ok (invalidCredResp, st)
      | some u =>
        match checkHashJ u.password password with
        | .error e => .error e
        | .ok okPw =>
          if !okPw then .ok (invalidCredResp, st)
          else if !u.is_active then
            .ok ({ status := 403,
                   body := Json.obj [("error", .str "Account is deactivated")],
                   cookie := .unchanged }, st)
          else
            let tok := issueToken serverSecret u.id u.email u.role.value now 86400
            .ok ({ status := 200,
                   body := Json.obj [("message", .str "Login successful"),
                                     ("user", userProjection u)],
                   cookie := .set tok }, st)
  | _ => .error .attrError

/-- Embedding of the logout route (auth.py lines 157 to 162). -/
def logout (st : Store) : Resp × Store :=
  ({ status := 200, body := Json.obj [("message", .str "Logout successful")],
     cookie := .cleared }, st)

/-- Embedding of the register route (auth.py lines 164 to 204). -/
def register (now : Nat) (fresh : String) (st : Store) (body : Json) :
    Except PyExc (Resp × Store) :=
  match body with
  | .obj fs =>
    let email := jlookup fs "email"
    let password := jlookup fs "password"
    let full_name := jlookup fs "full_name"
    let role := (jfind fs "role").getD (.str "STAFF")
    if !(truthy email && truthy password && truthy full_name) then
      .ok ({ status := 400,
             body := Json.obj [("msg", .str "Email, password, and full name are required")],
             cookie := .unchanged }, st)
    else if !isValidEmailJ email then
      .ok ({ status := 400, body := Json.obj [("msg", .str "Invalid email address")],
             cookie := .unchanged }, st)
    else
      match findByEmailJ st email with
      | some _ =>
        .ok ({ status := 400, body := Json.obj [("msg", .str "Email already registered")],
               cookie := .unchanged }, st)
      | none =>
        match role with
        | .str r =>
          match UserRole.fromName (pyUpper r) with
          | none =>
            .ok ({ status := 400,
                   body := Json.obj [("msg",
                     .str "Invalid role specified. Must be one of: ADMIN, PHOTOGRAPHER, STAFF")],
                   cookie := .unchanged }, st)
          | some ur =>
            match pyHashJ password with
            | .error e => .error e
            | .ok hash =>
              match email with
              | .str e =>
                let phone := jlookup fs "phone"
                let avatar := jlookup fs "avatar_url"
                if !(isBindable full_name && isBindableOpt phone && isBindableOpt avatar) then
                  .error .dbError
                else
                  let newUser : User :=
                    { id := fresh, email := e, password := hash, full_name := full_name,
                      role := ur, phone := phone, avatar_url := avatar, is_active := true,
                      last_login := none, created_at := now, updated_at := now }
                  .ok ({ status := 201,
                         body := Json.obj [("msg", .str "User registered successfully"),
                                           ("user_id", .str fresh), ("email", .str e)],
                         cookie := .unchanged }, st ++ [newUser])
              | _ => .error .attrError
        | _ => .error .attrError
  | _ => .error .attrError

/-- Embedding of the get_profile route (auth.py lines 206 to 215). -/
def get_profile (st : Store) (identity : String) : Resp × Store :=
  match findById st identity with
  | none => ({ status := 404, body := Json.obj [("msg", .str "User not found")],
               cookie := .unchanged }, st)
  | some u => ({ status := 200, body := u.as_dict, cookie := .unchanged }, st)

/-- Embedding of the update_profile route (auth.py lines 217 to 238).
Field updates are taken in source order; the commit bind check rejects
container or null values for the mutated columns. -/
def update_profile (now : Nat) (st : Store) (identity : String) (body : Json) :
    Except PyExc (Resp × Store) :=
  match findById st identity with
  | none => .ok ({ status := 404, body := Json.obj [("msg", .str "User not found")],
                   cookie := .unchanged }, st)
  | some u =>
    match jHasKey body "full_name" with
    | .error e => .error e
    | .ok b1 =>
      match (if b1 then jIndex body "full_name" else .ok u.full_name) with
      | .error e => .error e
      | .ok fn =>
        match jHasKey body "phone" with
        | .error e => .error e
        | .ok b2 =>
          match (if b2 then jIndex body "phone" else .ok u.phone) with
          | .error e => .error e
          | .ok ph =>
            match jHasKey body "avatar_url" with
            | .error e => .error e
            | .ok b3 =>
              match (if b3 then jIndex body "avatar_url" else .ok u.avatar_url) with
              | .error e => .error e
              | .ok av =>
                let u' : User :=
                  { u with full_name := fn, phone := ph, avatar_url := av,
                           updated_at := if b1 || b2 || b3 then now else u.updated_at }
                if !(isBindable u'.full_name && isBindableOpt u'.phone &&
                     isBindableOpt u'.avatar_url) then
                  .error .dbError
                else
                  .ok ({ status := 200,
                         body := Json.obj [("msg", .str "Profile updated successfully"),
                                           ("user", u'.as_dict)],
                         cookie := .unchanged },
                       st.map (fun v => if v.id == identity then u' else v))

/-- Embedding of the check_admin route (auth.py lines 240 to 244). -/
def check_admin (st : Store) : Resp × Store :=
  ({ status := 200, body := Json.obj [("admin_exists", .bool (adminExists st))],
     cookie := .unchanged }, st)

/-- Embedding of the register_first_admin route (auth.py lines 246 to
313). The admin-existence refusal precedes any reading of the body. -/
def register_first_admin (now : Nat) (fresh : String) (st : Store) (body : Json) :
    Except PyExc (Resp × Store) :=
  if adminExists st then
    .ok ({ status := 403, body := Json.obj [("msg", .str "Admin already exists")],
           cookie := .unchanged }, st)
  else
    match body with
    | .obj fs =>
      let email := jlookup fs "email"
      let password := jlookup fs "password"
      let full_name := jlookup fs "full_name"
      if !(truthy email && truthy password && truthy full_name) then
        .ok ({ status := 400, body := Json.obj [("msg", .str "All fields are required")],
               cookie := .unchanged }, st)
      else if !isValidEmailJ email then
        .ok ({ status := 400, body := Json.obj [("msg", .str "Invalid email address")],
               cookie := .unchanged }, st)
      else
        match findByEmailJ st email with
        | some _ =>
          .ok ({ status := 400, body := Json.obj [("msg", .str "Email already registered")],
                 cookie := .unchanged }, st)
        | none =>
          match pyHashJ password with
          | .error e => .error e
          | .ok hash =>
            match email with
            | .str e =>
              if !isBindable full_name then .error .dbError
              else
                let newAdmin : User :=
                  { id := fresh, email := e, password := hash, full_name := full_name,
                    role := .ADMIN, phone := .null, avatar_url := .null, is_active := true,
                    last_login := none, created_at := now, updated_at := now }
                let tok := issueToken serverSecret fresh e UserRole.ADMIN.value now 86400
                .ok ({ status := 201,
                       body := Json.obj [("msg", .str "First admin registered successfully"),
                                         ("admin_id", .str fresh), ("email", .str e),
                                         ("user", userProjection newAdmin)],
                       cookie := .set tok }, st ++ [newAdmin])
            | _ => .error .attrError
    | _ => .error .attrError

/-- Embedding of the get_users route (auth.py lines 315 to 324): the
role claim is compared case-sensitively against the lowercase string
admin, not through role_required. -/
def get_users (claims : List (String × Json)) (st : Store) : Resp × Store :=
  if !isStrEq (jlookup claims "role") "admin" then
    ({ status := 403, body := forbiddenBody, cookie := .unchanged }, st)
  else
    ({ status := 200, body := Json.arr (st.map User.as_dict), cookie := .unchanged }, st)

/-- The operations of the Auth Service boundary. -/
inductive AuthOp where
  | loginOp
  | logoutOp
  | registerOp
  | bootstrapOp
  | getProfileOp
  | updateProfileOp
  | listUsersOp
  | checkAdminOp

/-- Request context: body, verified claims, token identity, clock and
the fresh row id the store would generate. -/
structure Ctx where
  body : Json
  claims : List (String × Json)
  identity : String
  now : Nat
  fresh : String

/-- Dispatch of one operation against one store. -/
def dispatch (op : AuthOp) (ctx : Ctx) (st : Store) : Except PyExc (Resp × Store) :=
  match op with
  | .loginOp => login ctx.now st ctx.body
  | .logoutOp => .ok (logout st)
  | .registerOp => register ctx.now ctx.fresh st ctx.body
  | .bootstrapOp => register_first_admin ctx.now ctx.fresh st ctx.body
  | .getProfileOp => .ok (get_profile st ctx.identity)
  | .updateProfileOp => update_profile ctx.now st ctx.identity ctx.body
  | .listUsersOp => .ok (get_users ctx.claims st)
  | .checkAdminOp => .ok (check_admin st)

/-- The structured 500 response of the application error handler
(app.py lines 113 to 118). -/
def internalErrorResp : Resp :=
  { status := 500,
    body := Json.obj [("error", .str "internal_server_error"),
                      ("message", .str "An internal server error occurred.")],
    cookie := .unchanged }

/-- An operation at the boundary: a raised exception is mapped to the
structured 500 response and the uncommitted session is discarded. -/
def handled (op : AuthOp) (ctx : Ctx) (st : Store) : Resp × Store :=
  match dispatch op ctx st with
  | .error _ => (internalErrorResp, st)
  | .ok r => r

/-- Key presence at the top level of a JSON object body. -/
def hasKeyTop (j : Json) (key : String) : Bool :=
  match j with
  | .obj fs => (jfind fs key).isSome
  | _ => false

/-- A response is taxonomy-structured when any error status carries an
object body with an error or msg field. -/
def errorStructured (r : Resp) : Bool :=
  if 400 ≤ r.status then hasKeyTop r.body "error" || hasKeyTop r.body "msg"
  else true

mutual
/-- No object anywhere inside the JSON value carries a password key. -/
def noPasswordKey : Json → Bool
  | .obj fs => noPasswordKeyObj fs
  | .arr xs => noPasswordKeyArr xs
  | _ => true
/-- Object-list helper of noPasswordKey. -/
def noPasswordKeyObj : List (String × Json) → Bool
  | [] => true
  | (k, v) :: rest => !(k == "password") && noPasswordKey v && noPasswordKeyObj rest
/-- Array helper of noPasswordKey. -/
def noPasswordKeyArr : List Json → Bool
  | [] => true
  | v :: rest => noPasswordKey v && noPasswordKeyArr rest
end

/-- A concrete ADMIN row used by witness instantiations. -/
def seedAdmin : User :=
  { id := "a1", email := "x@y.co", password := pyHash "pw",
    full_name := .str "X", role := .ADMIN, phone := .null, avatar_url := .null,
    is_active := true, last_login := none, created_at := 0, updated_at := 0 }

/-- A concrete STAFF row used by witness instantiations. -/
def seedStaff : User :=
  { id := "s1", email := "s@t.co", password := pyHash "spw",
    full_name := .str "S", role := .STAFF, phone := .null, avatar_url := .null,
    is_active := true, last_login := none, created_at := 0, updated_at := 0 }

/-- A concrete deactivated STAFF row used by witness instantiations. -/
def seedInactive : User :=
  { id := "s2", email := "i@t.co", password := pyHash "ipw",
    full_name := .str "I", role := .STAFF, phone := .null, avatar_url := .null,
    is_active := false, last_login := none, created_at := 0, updated_at := 0 }

theorem lastAtSplit_eq : ∀ (cs l d : List Char), lastAtSplit cs = some (l, d) →
    cs = l ++ '@' :: d := by
  intro cs
  induction cs with
  | nil => intro l d h; simp [lastAtSplit] at h
  | cons c rest ih =>
    intro l d h
    simp only [lastAtSplit] at h
    cases hr : lastAtSplit rest with
    | some p =>
      obtain ⟨l2, d2⟩ := p
      rw [hr] at h
      simp only [Option.some.injEq, Prod.mk.injEq] at h
      obtain ⟨h1, h2⟩ := h
      subst h1
      subst h2
      simp [ih l2 d2 hr]
    | none =>
      rw [hr] at h
      by_cases hc : c == '@'
      · rw [if_pos hc] at h
        simp only [Option.some.injEq, Prod.mk.injEq] at h
        obtain ⟨h1, h2⟩ := h
        subst h1
        subst h2
        simp at hc
        simp [hc]
      · rw [if_neg hc] at h
        cases h

theorem email_core_sound (e : List Char) (h : isValidEmailCore e = true) :
    ∃ l d, lastAtSplit e = some (l, d) ∧
      e = l ++ '@' :: d ∧
      e.length ≤ 254 ∧
      l.length ≤ 64 ∧ d.length ≤ 253 ∧
      d.contains '.' = true ∧
      jHasKey.hasSubstr ['.', '.'] e = false ∧
      d.head? ≠ some '.' ∧ d.getLast? ≠ some '.' ∧
      d.head? ≠ some '-' ∧ d.getLast? ≠ some '-' ∧
      2 ≤ (tldOf d).length := by
  unfold isValidEmailCore at h
  split at h
  · exact absurd h (by simp)
  · split at h
    · exact absurd h (by simp)
    · rename_i hlen hpat
      split at h
      · exact absurd h (by simp)
      · rename_i l d heq
        refine ⟨l, d, heq, lastAtSplit_eq e l d heq, ?_⟩
        split at h
        · exact absurd h (by simp)
        · split at h
          · exact absurd h (by simp)
          · split at h
            · exact absurd h (by simp)
            · split at h
              · exact absurd h (by simp)
              · split at h
                · exact absurd h (by simp)
                · split at h
                  · exact absurd h (by simp)
                  · split at h
                    · exact absurd h (by simp)
                    · rename_i h1 h2 h3 h4 h5 h6 h7
                      push_neg at hlen
                      simp only [not_lt] at h1 h2 h7
                      simp at h3 h4 h5 h6
                      refine ⟨hlen.1, h1, h2, by simpa using h3, h4,
                        h5.1, h5.2, h6.1, h6.2, h7⟩

/-- C3 (corrected): every string accepted by the email validator, after
stripping, has AT LEAST one at-sign (not exactly one: a double-quoted
local part may itself contain at-signs), and, splitting at the last
at-sign, satisfies all the remaining stated constraints: total length
at most 254, local part at most 64, domain at most 253, no consecutive
dots, a dotted domain whose last label has at least 2 characters, and a
domain that neither starts nor ends with a dot or a hyphen; and every
request whose email field violates one of these constraints is rejected
by register with a 400 response, the store unchanged. -/
theorem email_validation_sound_amended :
    (∀ s, is_valid_email s = true →
      ∃ l d, lastAtSplit (pyStrip s.data) = some (l, d) ∧
        pyStrip s.data = l ++ '@' :: d ∧
        1 ≤ atCount (pyStrip s.data) ∧
        (pyStrip s.data).length ≤ 254 ∧
        l.length ≤ 64 ∧ d.length ≤ 253 ∧
        d.contains '.' = true ∧
        jHasKey.hasSubstr ['.', '.'] (pyStrip s.data) = false ∧
        d.head? ≠ some '.' ∧ d.getLast? ≠ some '.' ∧
        d.head? ≠ some '-' ∧ d.getLast? ≠ some '-' ∧
        2 ≤ (tldOf d).length) ∧
    (∀ now fresh st fs, truthy (jlookup fs "email") = true →
        truthy (jlookup fs "password") = true →
        truthy (jlookup fs "full_name") = true →
        isValidEmailJ (jlookup fs "email") = false →
        register now fresh st (.obj fs) =
          .ok ({ status := 400, body := Json.obj [("msg", .str "Invalid email address")],
                 cookie := .unchanged }, st)) := by
  constructor
  · intro s h
    obtain ⟨l, d, heq, hsplit, hrest⟩ := email_core_sound (pyStrip s.data) h
    refine ⟨l, d, heq, hsplit, ?_, hrest⟩
    rw [hsplit]
    simp [atCount, List.filter_append]
    omega
  · intro now fresh st fs h1 h2 h3 h4
    simp [register, h1, h2, h3, h4]

/-- C3 counterexample: the concrete email with a double-quoted local
part is accepted by is_valid_email although it contains two at-signs,
refuting the exactly-one-at-sign constraint of the claim. -/
theorem email_validation_two_at_signs_accepted :
    is_valid_email "\"a@b\"@cd.ef" = true ∧
      atCount (pyStrip (String.data "\"a@b\"@cd.ef")) = 2 := by
  constructor
  · decide
  · decide

/-- C3 witness: the soundness direction applied to a concrete accepted
email, and the rejection direction applied to a concrete invalid one. -/
theorem email_validation_sound_amended_witness :
    is_valid_email "ab@cd.ef" = true ∧
      (∃ l d, lastAtSplit (pyStrip (String.data "ab@cd.ef")) = some (l, d) ∧
        pyStrip (String.data "ab@cd.ef") = l ++ '@' :: d ∧
        1 ≤ atCount (pyStrip (String.data "ab@cd.ef")) ∧
        (pyStrip (String.data "ab@cd.ef")).length ≤ 254 ∧
        l.length ≤ 64 ∧ d.length ≤ 253 ∧
        d.contains '.' = true ∧
        jHasKey.hasSubstr ['.', '.'] (pyStrip (String.data "ab@cd.ef")) = false ∧
        d.head? ≠ some '.' ∧ d.getLast? ≠ some '.' ∧
        d.head? ≠ some '-' ∧ d.getLast? ≠ some '-' ∧
        2 ≤ (tldOf d).length) ∧
      register 7 "id1" []
          (.obj [("email", .str "bad@@"), ("password", .str "pw"), ("full_name", .str "N")]) =
        .ok ({ status := 400, body := Json.obj [("msg", .str "Invalid email address")],
               cookie := .unchanged }, []) := by
  refine ⟨by decide, email_validation_sound_amended.1 "ab@cd.ef" (by decide), ?_⟩
  exact email_validation_sound_amended.2 7 "id1" []
    [("email", .str "bad@@"), ("password", .str "pw"), ("full_name", .str "N")]
    (by decide) (by decide) (by decide) (by decide)

/-- C1 (corrected): the role_required decorator does compare the role
claim case-insensitively against the required role, running the wrapped
operation on match and returning the 403 body on mismatch; but the
ADMIN-gated ListUsers operation (get_users) does not use it: it
compares the role claim case-sensitively with the lowercase string
admin, so only a claim spelled exactly admin is granted access and any
other spelling, including ADMIN, receives 403. -/
theorem role_gate_casing :
    (∀ required claims r inner, jfind claims "role" = some (.str r) →
        roleRequired required claims inner =
          if pyUpper r = pyUpper required then .ok inner
          else .ok { status := 403, body := forbiddenBody, cookie := .unchanged }) ∧
    (∀ (st : Store) claims, jlookup claims "role" = .str "admin" →
        get_users claims st =
          ({ status := 200, body := Json.arr (st.map User.as_dict),
             cookie := .unchanged }, st)) ∧
    (∀ (st : Store) claims r, jlookup claims "role" = .str r → r ≠ "admin" →
        get_users claims st =
          ({ status := 403, body := forbiddenBody, cookie := .unchanged }, st)) := by
  refine ⟨?_, ?_, ?_⟩
  · intro required claims r inner h
    rw [roleRequired, h]
    by_cases hc : pyUpper r = pyUpper required
    · simp [hc]
    · simp [hc]
  · intro st claims h
    rw [get_users, h]
    simp [isStrEq]
  · intro st claims r h hr
    rw [get_users, h]
    simp [isStrEq, hr]

/-- C1 counterexample: a token whose role claim is the uppercase
spelling ADMIN is refused by get_users with 403, while the lowercase
spelling is granted, refuting the case-insensitive comparison the claim
ascribes to the ListUsers gate. -/
theorem list_users_uppercase_admin_forbidden :
    (get_users [("role", Json.str "ADMIN")] []).1.status = 403 ∧
      (get_users [("role", Json.str "admin")] []).1.status = 200 := by
  exact ⟨rfl, rfl⟩

/-- C1 witness: the amended role-gate behavior at concrete inputs. -/
theorem role_gate_casing_witness :
    roleRequired "ADMIN" [("role", Json.str "admin")]
        { status := 200, body := .null, cookie := .unchanged } =
      .ok { status := 200, body := .null, cookie := .unchanged } ∧
      get_users [("role", Json.str "admin")] [] =
        ({ status := 200, body := Json.arr [], cookie := .unchanged }, []) ∧
      get_users [("role", Json.str "STAFF")] [] =
        ({ status := 403, body := forbiddenBody, cookie := .unchanged }, []) := by
  refine ⟨?_, ?_, ?_⟩
  · have h := role_gate_casing.1 "ADMIN" [("role", Json.str "admin")] "admin"
      { status := 200, body := .null, cookie := .unchanged } rfl
    rw [h, if_pos (by decide)]
  · exact role_gate_casing.2.1 [] [("role", Json.str "admin")] rfl
  · exact role_gate_casing.2.2 [] [("role", Json.str "STAFF")] "STAFF" rfl (by decide)

/-- C2 (confirmed): once any ADMIN-role user exists, every
register_first_admin call returns the 403 AdminAlreadyExists response
and leaves the store unchanged; every successful call leaves an ADMIN
in the store, so a second success is impossible; and from an admin-free
store a call with valid inputs does succeed with 201, appending an
ADMIN row. -/
theorem bootstrap_admin_at_most_once :
    (∀ now fresh (st : Store) body, adminExists st = true →
        register_first_admin now fresh st body =
          .ok ({ status := 403, body := Json.obj [("msg", .str "Admin already exists")],
                 cookie := .unchanged }, st)) ∧
    (∀ now fresh (st : Store) body r st2,
        register_first_admin now fresh st body = .ok (r, st2) →
        r.status = 201 → adminExists st2 = true) ∧
    (∀ now fresh (st : Store) e p fn, adminExists st = false →
        is_valid_email e = true → findByEmail st e = none → p ≠ "" → fn ≠ "" →
        ∃ r a, register_first_admin now fresh st
            (Json.obj [("email", .str e), ("password", .str p), ("full_name", .str fn)]) =
            .ok (r, st ++ [a]) ∧
          r.status = 201 ∧ a.role = UserRole.ADMIN ∧ a.email = e) := by
  refine ⟨?_, ?_, ?_⟩
  · intro now fresh st body h
    simp [register_first_admin, h]
  · intro now fresh st body r st2 h hr
    unfold register_first_admin at h
    split at h
    · rename_i hadm
      simp only [Except.ok.injEq, Prod.mk.injEq] at h
      obtain ⟨h1, h2⟩ := h
      subst h1
      simp at hr
    · rename_i hadm
      split at h
      · rename_i fs
        simp only [] at h
        split at h
        · simp only [Except.ok.injEq, Prod.mk.injEq] at h
          obtain ⟨h1, h2⟩ := h
          subst h1
          simp at hr
        · split at h
          · simp only [Except.ok.injEq, Prod.mk.injEq] at h
            obtain ⟨h1, h2⟩ := h
            subst h1
            simp at hr
          · split at h
            · simp only [Except.ok.injEq, Prod.mk.injEq] at h
              obtain ⟨h1, h2⟩ := h
              subst h1
              simp at hr
            · split at h
              · cases h
              · rename_i hash hhash
                split at h
                · rename_i e
                  split at h
                  · cases h
                  · simp only [Except.ok.injEq, Prod.mk.injEq] at h
                    obtain ⟨h1, h2⟩ := h
                    subst h2
                    simp [adminExists, List.any_append]
                · cases h
      · cases h
  · intro now fresh st e p fn hadm hval hfind hp hfn
    have he : e ≠ "" := by
      intro hcon
      rw [hcon] at hval
      exact absurd hval (by decide)
    refine ⟨{ status := 201,
              body := Json.obj [("msg", .str "First admin registered successfully"),
                ("admin_id", .str fresh), ("email", .str e),
                ("user", userProjection
                  ⟨fresh, e, pyHash p, .str fn, .ADMIN, .null, .null, true, none, now, now⟩)],
              cookie := .set (issueToken serverSecret fresh e UserRole.ADMIN.value now 86400) },
      ⟨fresh, e, pyHash p, .str fn, .ADMIN, .null, .null, true, none, now, now⟩,
      ?_, rfl, rfl, rfl⟩
    rw [register_first_admin]
    rw [if_neg (by simp [hadm])]
    simp only [jlookup, jfind, truthy, isValidEmailJ, findByEmailJ, pyHashJ, isBindable]
    norm_num
    rw [if_neg (by simp [he, hp, hfn])]
    rw [if_neg (by simp [hval])]
    rw [hfind]
    rfl

/-- C2 witness: the refusal, the post-success invariant and the
success instantiated on concrete stores. -/
theorem bootstrap_admin_at_most_once_witness :
    (adminExists [seedAdmin] = true ∧
      register_first_admin 5 "a2" [seedAdmin]
          (Json.obj [("email", .str "z@w.co"), ("password", .str "pw2"),
                     ("full_name", .str "Z")]) =
        .ok ({ status := 403, body := Json.obj [("msg", .str "Admin already exists")],
               cookie := .unchanged }, [seedAdmin])) ∧
      (∃ r a, register_first_admin 5 "a1" []
          (Json.obj [("email", .str "x@y.co"), ("password", .str "pw"),
                     ("full_name", .str "X")]) = .ok (r, [] ++ [a]) ∧
        r.status = 201 ∧ a.role = UserRole.ADMIN ∧ a.email = "x@y.co") := by
  refine ⟨⟨by decide, ?_⟩, ?_⟩
  · exact bootstrap_admin_at_most_once.1 5 "a2" _ _ (by decide)
  · exact bootstrap_admin_at_most_once.2.2 5 "a1" [] "x@y.co" "pw" "X" rfl (by decide)
      rfl (by decide) (by decide)

/-- C5 (confirmed): for a stored user found by email whose hash
verifies against the supplied password, login succeeds with 200, issues
a token whose claims are exactly that user id, email and role value,
and returns the public user projection; but when is_active is false the
same credentials yield the 403 deactivated response and no token. -/
theorem login_success_token_claims (now : Nat) (st : Store) (e p : String) (u : User)
    (hfind : findByEmail st e = some u) (hpw : u.password = pyHash p)
    (he : e ≠ "") (hp : p ≠ "") :
    (u.is_active = true →
      login now st (Json.obj [("email", .str e), ("password", .str p)]) =
        .ok ({ status := 200,
               body := Json.obj [("message", .str "Login successful"),
                                 ("user", userProjection u)],
               cookie := .set { sub := u.id, email := u.email, role := u.role.value,
                                iat := now, exp := now + 86400, sig := serverSecret } },
             st)) ∧
    (u.is_active = false →
      login now st (Json.obj [("email", .str e), ("password", .str p)]) =
        .ok ({ status := 403,
               body := Json.obj [("error", .str "Account is deactivated")],
               cookie := .unchanged }, st)) := by
  have hbody : login now st (Json.obj [("email", .str e), ("password", .str p)]) =
      (if !u.is_active then
        .ok ({ status := 403,
               body := Json.obj [("error", .str "Account is deactivated")],
               cookie := .unchanged }, st)
      else
        .ok ({ status := 200,
               body := Json.obj [("message", .str "Login successful"),
                                 ("user", userProjection u)],
               cookie := .set (issueToken serverSecret u.id u.email u.role.value now 86400) },
             st)) := by
    rw [login]
    simp only [jlookup, jfind]
    norm_num
    rw [if_neg (by simp [truthy, he, hp])]
    rw [show findByEmailJ st (Json.str e) = some u from hfind]
    norm_num
    rw [if_neg (show ¬("email" = "password") from by decide)]
    norm_num
    rw [show checkHashJ u.password (Json.str p) = .ok (u.password == pyHash p) from rfl]
    simp [hpw]
  constructor
  · intro hact
    rw [hbody, if_neg (by simp [hact])]
    rfl
  · intro hact
    rw [hbody, if_pos (by simp [hact])]

/-- C5 witness: login of the concrete seeded active user and of the
concrete deactivated user. -/
theorem login_success_token_claims_witness :
    (login 3 [seedStaff, seedInactive] (Json.obj [("email", .str "s@t.co"),
        ("password", .str "spw")]) =
      .ok ({ status := 200,
             body := Json.obj [("message", .str "Login successful"),
                               ("user", userProjection seedStaff)],
             cookie := .set { sub := "s1", email := "s@t.co", role := "staff",
                              iat := 3, exp := 3 + 86400, sig := serverSecret } },
           [seedStaff, seedInactive])) ∧
    (login 3 [seedStaff, seedInactive] (Json.obj [("email", .str "i@t.co"),
        ("password", .str "ipw")]) =
      .ok ({ status := 403,
             body := Json.obj [("error", .str "Account is deactivated")],
             cookie := .unchanged }, [seedStaff, seedInactive])) := by
  constructor
  · exact (login_success_token_claims 3 [seedStaff, seedInactive] "s@t.co" "spw"
      seedStaff rfl rfl (by decide) (by decide)).1 rfl
  · exact (login_success_token_claims 3 [seedStaff, seedInactive] "i@t.co" "ipw"
      seedInactive rfl rfl (by decide) (by decide)).2 rfl

/-- C6 (confirmed): login with a wrong password for a stored user and
login with an email matching no user produce literally the same
response: status 401 with the same Invalid email or password body, so
the two failures are indistinguishable in shape. -/
theorem login_failures_indistinguishable (now now2 : Nat) (st : Store)
    (e p e2 p2 : String) (u : User)
    (hfind : findByEmail st e = some u) (hpw : u.password ≠ pyHash p)
    (hmiss : findByEmail st e2 = none)
    (he : e ≠ "") (hp : p ≠ "") (he2 : e2 ≠ "") (hp2 : p2 ≠ "") :
    login now st (Json.obj [("email", .str e), ("password", .str p)]) =
      .ok (invalidCredResp, st) ∧
    login now2 st (Json.obj [("email", .str e2), ("password", .str p2)]) =
      .ok (invalidCredResp, st) := by
  constructor
  · rw [login]
    simp only [jlookup, jfind]
    norm_num
    rw [if_neg (by simp [truthy, he, hp])]
    rw [show findByEmailJ st (Json.str e) = some u from hfind]
    norm_num
    rw [if_neg (show ¬("email" = "password") from by decide)]
    norm_num
    rw [show checkHashJ u.password (Json.str p) = .ok (u.password == pyHash p) from rfl]
    simp [hpw]
  · rw [login]
    simp only [jlookup, jfind]
    norm_num
    rw [if_neg (by simp [truthy, he2, hp2])]
    rw [show findByEmailJ st (Json.str e2) = none from hmiss]

/-- C6 witness: wrong password against the seeded user and an unknown
email against the same store produce the identical 401 response. -/
theorem login_failures_indistinguishable_witness :
    login 1 [seedStaff] (Json.obj [("email", .str "s@t.co"), ("password", .str "bad")]) =
      .ok (invalidCredResp, [seedStaff]) ∧
    login 9 [seedStaff] (Json.obj [("email", .str "no@t.co"), ("password", .str "bad")]) =
      .ok (invalidCredResp, [seedStaff]) :=
  login_failures_indistinguishable 1 9 [seedStaff] "s@t.co" "bad" "no@t.co" "bad"
    seedStaff rfl (by decide) rfl (by decide) (by decide) (by decide) (by decide)

/-- C8 (confirmed): verifying a token immediately after issuance with a
positive TTL returns exactly the issued subject, email and role claims;
verifying at or after expiry returns the Expired outcome, which is a
different constructor from InvalidSignature; and both login and
register_first_admin issue their tokens with expiry exactly 86400
seconds (24 hours) after the issuing clock. -/
theorem token_roundtrip_ttl :
    (∀ secret sub em rl now ttl, 0 < ttl →
        verifyToken secret (issueToken secret sub em rl now ttl) now = .ok sub em rl) ∧
    (∀ secret sub em rl now ttl t, now + ttl ≤ t →
        verifyToken secret (issueToken secret sub em rl now ttl) t = .expired) ∧
    VerifyResult.expired ≠ VerifyResult.invalidSignature ∧
    (∀ now (st : Store) body r st2 tok,
        login now st body = .ok (r, st2) → r.cookie = .set tok →
        tok.iat = now ∧ tok.exp = now + 86400) ∧
    (∀ now fresh (st : Store) body r st2 tok,
        register_first_admin now fresh st body = .ok (r, st2) → r.cookie = .set tok →
        tok.iat = now ∧ tok.exp = now + 86400) := by
  refine ⟨?_, ?_, by decide, ?_, ?_⟩
  · intro secret sub em rl now ttl h
    rw [verifyToken]
    rw [if_neg (by simp [issueToken])]
    rw [if_neg (by simp [issueToken]; omega)]
    rfl
  · intro secret sub em rl now ttl t h
    rw [verifyToken]
    rw [if_neg (by simp [issueToken])]
    rw [if_pos (by simp [issueToken]; omega)]
  · intro now st body r st2 tok h hc
    unfold login at h
    split at h
    · rename_i fs
      simp only [] at h
      split at h
      · simp only [Except.ok.injEq, Prod.mk.injEq] at h
        obtain ⟨h1, h2⟩ := h
        subst h1
        simp at hc
      · split at h
        · simp only [Except.ok.injEq, Prod.mk.injEq] at h
          obtain ⟨h1, h2⟩ := h
          subst h1
          simp [invalidCredResp] at hc
        · split at h
          · cases h
          · split at h
            · simp only [Except.ok.injEq, Prod.mk.injEq] at h
              obtain ⟨h1, h2⟩ := h
              subst h1
              simp [invalidCredResp] at hc
            · split at h
              · simp only [Except.ok.injEq, Prod.mk.injEq] at h
                obtain ⟨h1, h2⟩ := h
                subst h1
                simp at hc
              · simp only [Except.ok.injEq, Prod.mk.injEq] at h
                obtain ⟨h1, h2⟩ := h
                subst h1
                simp only [CookieEffect.set.injEq] at hc
                subst hc
                exact ⟨rfl, rfl⟩
    · cases h
  · intro now fresh st body r st2 tok h hc
    unfold register_first_admin at h
    split at h
    · simp only [Except.ok.injEq, Prod.mk.injEq] at h
      obtain ⟨h1, h2⟩ := h
      subst h1
      simp at hc
    · split at h
      · rename_i fs
        simp only [] at h
        split at h
        · simp only [Except.ok.injEq, Prod.mk.injEq] at h
          obtain ⟨h1, h2⟩ := h
          subst h1
          simp at hc
        · split at h
          · simp only [Except.ok.injEq, Prod.mk.injEq] at h
            obtain ⟨h1, h2⟩ := h
            subst h1
            simp at hc
          · split at h
            · simp only [Except.ok.injEq, Prod.mk.injEq] at h
              obtain ⟨h1, h2⟩ := h
              subst h1
              simp at hc
            · split at h
              · cases h
              · split at h
                · split at h
                  · cases h
                  · simp only [Except.ok.injEq, Prod.mk.injEq] at h
                    obtain ⟨h1, h2⟩ := h
                    subst h1
                    simp only [CookieEffect.set.injEq] at hc
                    subst hc
                    exact ⟨rfl, rfl⟩
                · cases h
      · cases h

/-- C8 witness: round trip and expiry at concrete values, and the TTL
property applied to a concrete successful login. -/
theorem token_roundtrip_ttl_witness :
    verifyToken "k" (issueToken "k" "u1" "a@b.co" "staff" 100 86400) 100 =
      .ok "u1" "a@b.co" "staff" ∧
    verifyToken "k" (issueToken "k" "u1" "a@b.co" "staff" 100 86400) 86500 = .expired ∧
    ({ sub := "s1", email := "s@t.co", role := "staff",
       iat := 3, exp := 3 + 86400, sig := serverSecret } : Token).iat = 3 ∧
    ({ sub := "s1", email := "s@t.co", role := "staff",
       iat := 3, exp := 3 + 86400, sig := serverSecret } : Token).exp = 3 + 86400 := by
  refine ⟨token_roundtrip_ttl.1 "k" "u1" "a@b.co" "staff" 100 86400 (by decide),
    token_roundtrip_ttl.2.1 "k" "u1" "a@b.co" "staff" 100 86400 86500 (by decide), ?_⟩
  have hlogin : login 3 [seedStaff, seedInactive]
      (Json.obj [("email", .str "s@t.co"), ("password", .str "spw")]) =
      .ok ({ status := 200,
             body := Json.obj [("message", .str "Login successful"),
                               ("user", userProjection seedStaff)],
             cookie := .set { sub := "s1", email := "s@t.co", role := "staff",
                              iat := 3, exp := 3 + 86400, sig := serverSecret } },
           [seedStaff, seedInactive]) := by rfl
  exact token_roundtrip_ttl.2.2.2.1 3 [seedStaff, seedInactive]
    (Json.obj [("email", .str "s@t.co"), ("password", .str "spw")]) _ _
    { sub := "s1", email := "s@t.co", role := "staff",
      iat := 3, exp := 3 + 86400, sig := serverSecret }
    hlogin rfl

/-- C9 (confirmed): register with valid inputs, a fresh email and any
role string whose uppercasing is ADMIN succeeds with 201 and appends an
ADMIN-role user, for every store, including stores that already contain
an ADMIN: the admin-exists refusal belongs only to
register_first_admin. -/
theorem register_admin_despite_existing_admin (now : Nat) (fresh : String) (st : Store)
    (e p fn r : String) (hval : is_valid_email e = true)
    (hfind : findByEmail st e = none) (hp : p ≠ "") (hfn : fn ≠ "")
    (hr : pyUpper r = "ADMIN") :
    register now fresh st (Json.obj [("email", .str e), ("password", .str p),
        ("full_name", .str fn), ("role", .str r)]) =
      .ok ({ status := 201,
             body := Json.obj [("msg", .str "User registered successfully"),
                               ("user_id", .str fresh), ("email", .str e)],
             cookie := .unchanged },
           st ++ [{ id := fresh, email := e, password := pyHash p, full_name := .str fn,
                    role := .ADMIN, phone := .null, avatar_url := .null, is_active := true,
                    last_login := none, created_at := now, updated_at := now }]) := by
  have he : e ≠ "" := by
    intro hcon
    rw [hcon] at hval
    exact absurd hval (by decide)
  rw [register]
  simp only [jlookup, jfind, truthy, isValidEmailJ, findByEmailJ, pyHashJ, isBindable]
  norm_num
  rw [if_neg (by simp [he, hp, hfn])]
  rw [if_neg (by simp [hval])]
  rw [hfind]
  rw [if_neg (show ¬("email" = "role") from by decide)]
  rw [if_neg (show ¬("password" = "role") from by decide)]
  rw [if_neg (show ¬("full_name" = "role") from by decide)]
  norm_num
  rw [show UserRole.fromName (pyUpper r) = some UserRole.ADMIN from by
    rw [hr]; rfl]
  rfl

/-- C9 witness: registering a second admin with lowercase role string
admin while the seeded admin is already present succeeds. -/
theorem register_admin_despite_existing_admin_witness :
    adminExists [seedAdmin] = true ∧
    register 4 "n1" [seedAdmin] (Json.obj [("email", .str "new@z.co"),
        ("password", .str "npw"), ("full_name", .str "N"), ("role", .str "admin")]) =
      .ok ({ status := 201,
             body := Json.obj [("msg", .str "User registered successfully"),
                               ("user_id", .str "n1"), ("email", .str "new@z.co")],
             cookie := .unchanged },
           [seedAdmin] ++ [{ id := "n1", email := "new@z.co", password := pyHash "npw",
                             full_name := .str "N", role := .ADMIN, phone := .null,
                             avatar_url := .null, is_active := true, last_login := none,
                             created_at := 4, updated_at := 4 }]) := by
  refine ⟨by decide, ?_⟩
  exact register_admin_despite_existing_admin 4 "n1" [seedAdmin] "new@z.co" "npw" "N"
    "admin" (by decide) rfl (by decide) (by decide) (by decide)

theorem login_store_eq (now : Nat) (st : Store) (body : Json) (r : Resp) (st2 : Store)
    (h : login now st body = .ok (r, st2)) : st2 = st := by
  unfold login at h
  split at h
  · rename_i fs
    simp only [] at h
    split at h
    · simp only [Except.ok.injEq, Prod.mk.injEq] at h
      exact h.2.symm
    · split at h
      · simp only [Except.ok.injEq, Prod.mk.injEq] at h
        exact h.2.symm
      · split at h
        · cases h
        · split at h
          · simp only [Except.ok.injEq, Prod.mk.injEq] at h
            exact h.2.symm
          · split at h
            · simp only [Except.ok.injEq, Prod.mk.injEq] at h
              exact h.2.symm
            · simp only [Except.ok.injEq, Prod.mk.injEq] at h
              exact h.2.symm
  · cases h

theorem register_store_shape (now : Nat) (fresh : String) (st : Store) (body : Json)
    (r : Resp) (st2 : Store) (h : register now fresh st body = .ok (r, st2)) :
    st2 = st ∨ ∃ nu, st2 = st ++ [nu] ∧ nu.last_login = none := by
  unfold register at h
  split at h
  · rename_i fs
    simp only [] at h
    split at h
    · simp only [Except.ok.injEq, Prod.mk.injEq] at h
      exact Or.inl h.2.symm
    · split at h
      · simp only [Except.ok.injEq, Prod.mk.injEq] at h
        exact Or.inl h.2.symm
      · split at h
        · simp only [Except.ok.injEq, Prod.mk.injEq] at h
          exact Or.inl h.2.symm
        · split at h
          · split at h
            · simp only [Except.ok.injEq, Prod.mk.injEq] at h
              exact Or.inl h.2.symm
            · split at h
              · cases h
              · split at h
                · split at h
                  · cases h
                  · simp only [Except.ok.injEq, Prod.mk.injEq] at h
                    exact Or.inr ⟨_, h.2.symm, rfl⟩
                · cases h
          · cases h
  · cases h

theorem bootstrap_store_shape (now : Nat) (fresh : String) (st : Store) (body : Json)
    (r : Resp) (st2 : Store) (h : register_first_admin now fresh st body = .ok (r, st2)) :
    st2 = st ∨ ∃ nu, st2 = st ++ [nu] ∧ nu.last_login = none := by
  unfold register_first_admin at h
  split at h
  · simp only [Except.ok.injEq, Prod.mk.injEq] at h
    exact Or.inl h.2.symm
  · split at h
    · rename_i fs
      simp only [] at h
      split at h
      · simp only [Except.ok.injEq, Prod.mk.injEq] at h
        exact Or.inl h.2.symm
      · split at h
        · simp only [Except.ok.injEq, Prod.mk.injEq] at h
          exact Or.inl h.2.symm
        · split at h
          · simp only [Except.ok.injEq, Prod.mk.injEq] at h
            exact Or.inl h.2.symm
          · split at h
            · cases h
            · split at h
              · split at h
                · cases h
                · simp only [Except.ok.injEq, Prod.mk.injEq] at h
                  exact Or.inr ⟨_, h.2.symm, rfl⟩
              · cases h
    · cases h

theorem update_profile_store_shape (now : Nat) (st : Store) (idt : String) (body : Json)
    (r : Resp) (st2 : Store) (h : update_profile now st idt body = .ok (r, st2)) :
    st2 = st ∨ ∃ u u2, findById st idt = some u ∧ u2.id = u.id ∧
      u2.last_login = u.last_login ∧
      st2 = st.map (fun v => if v.id == idt then u2 else v) := by
  unfold update_profile at h
  split at h
  · simp only [Except.ok.injEq, Prod.mk.injEq] at h
    exact Or.inl h.2.symm
  · rename_i u hu
    split at h
    · cases h
    · split at h
      · cases h
      · split at h
        · cases h
        · split at h
          · cases h
          · split at h
            · cases h
            · split at h
              · cases h
              · simp only [] at h
                split at h
                · cases h
                · simp only [Except.ok.injEq, Prod.mk.injEq] at h
                  refine Or.inr ⟨u, _, hu, ?_, ?_, h.2.symm⟩
                  · rfl
                  · rfl

/-- C10 (confirmed): login never writes to the store: for every input,
successful or failing (exceptions included), the store after the
handled login operation is exactly the store before it, so every field
of every stored user, last_login and updated_at included, is unchanged;
moreover no operation of the service ever sets last_login on any user:
after any handled operation, every stored user either is a fresh row
with last_login none or keeps the last_login of the row with its id. -/
theorem login_pure_and_last_login_never_set :
    (∀ ctx st, (handled .loginOp ctx st).2 = st) ∧
    (∀ op ctx st u2, u2 ∈ (handled op ctx st).2 →
      u2.last_login = none ∨
        ∃ u1, u1 ∈ st ∧ u1.id = u2.id ∧ u1.last_login = u2.last_login) := by
  have hlogin : ∀ ctx st, (handled AuthOp.loginOp ctx st).2 = st := by
    intro ctx st
    unfold handled dispatch
    cases hd : login ctx.now st ctx.body with
    | error e => simp
    | ok pr =>
      obtain ⟨r, st2⟩ := pr
      simpa using login_store_eq ctx.now st ctx.body r st2 hd
  refine ⟨hlogin, ?_⟩
  intro op ctx st u2 hmem
  cases op with
  | loginOp =>
    rw [hlogin ctx st] at hmem
    exact Or.inr ⟨u2, hmem, rfl, rfl⟩
  | logoutOp =>
    refine Or.inr ⟨u2, ?_, rfl, rfl⟩
    simpa [handled, dispatch, logout] using hmem
  | registerOp =>
    unfold handled dispatch at hmem
    cases hd : register ctx.now ctx.fresh st ctx.body with
    | error e =>
      rw [hd] at hmem
      exact Or.inr ⟨u2, hmem, rfl, rfl⟩
    | ok pr =>
      obtain ⟨r, st2⟩ := pr
      rw [hd] at hmem
      rcases register_store_shape ctx.now ctx.fresh st ctx.body r st2 hd with hs | ⟨nu, hs, hnl⟩
      · subst hs
        exact Or.inr ⟨u2, hmem, rfl, rfl⟩
      · rw [hs] at hmem
        rcases List.mem_append.mp hmem with hin | hnew
        · exact Or.inr ⟨u2, hin, rfl, rfl⟩
        · left
          simp only [List.mem_singleton] at hnew
          rw [hnew, hnl]
  | bootstrapOp =>
    unfold handled dispatch at hmem
    cases hd : register_first_admin ctx.now ctx.fresh st ctx.body with
    | error e =>
      rw [hd] at hmem
      exact Or.inr ⟨u2, hmem, rfl, rfl⟩
    | ok pr =>
      obtain ⟨r, st2⟩ := pr
      rw [hd] at hmem
      rcases bootstrap_store_shape ctx.now ctx.fresh st ctx.body r st2 hd with hs | ⟨nu, hs, hnl⟩
      · subst hs
        exact Or.inr ⟨u2, hmem, rfl, rfl⟩
      · rw [hs] at hmem
        rcases List.mem_append.mp hmem with hin | hnew
        · exact Or.inr ⟨u2, hin, rfl, rfl⟩
        · left
          simp only [List.mem_singleton] at hnew
          rw [hnew, hnl]
  | getProfileOp =>
    refine Or.inr ⟨u2, ?_, rfl, rfl⟩
    cases hf : findById st ctx.identity with
    | none => simpa [handled, dispatch, get_profile, hf] using hmem
    | some u => simpa [handled, dispatch, get_profile, hf] using hmem
  | updateProfileOp =>
    unfold handled dispatch at hmem
    cases hd : update_profile ctx.now st ctx.identity ctx.body with
    | error e =>
      rw [hd] at hmem
      exact Or.inr ⟨u2, hmem, rfl, rfl⟩
    | ok pr =>
      obtain ⟨r, st2⟩ := pr
      rw [hd] at hmem
      rcases update_profile_store_shape ctx.now st ctx.identity ctx.body r st2 hd with
        hs | ⟨u, unew, hu, hid, hnl, hs⟩
      · subst hs
        exact Or.inr ⟨u2, hmem, rfl, rfl⟩
      · rw [hs] at hmem
        rcases List.mem_map.mp hmem with ⟨v, hv, hveq⟩
        by_cases hvid : (v.id == ctx.identity) = true
        · rw [if_pos hvid] at hveq
          refine Or.inr ⟨u, List.mem_of_find?_eq_some hu, ?_, ?_⟩
          · rw [← hveq, hid]
          · rw [← hveq, hnl]
        · rw [if_neg hvid] at hveq
          subst hveq
          exact Or.inr ⟨v, hv, rfl, rfl⟩
  | listUsersOp =>
    refine Or.inr ⟨u2, ?_, rfl, rfl⟩
    by_cases hc : isStrEq (jlookup ctx.claims "role") "admin" = true
    · simpa [handled, dispatch, get_users, hc] using hmem
    · simpa [handled, dispatch, get_users, hc] using hmem
  | checkAdminOp =>
    refine Or.inr ⟨u2, ?_, rfl, rfl⟩
    simpa [handled, dispatch, check_admin] using hmem

/-- C10 witness: the frame property of login and the last_login
disjunction instantiated at a concrete store and member. -/
theorem login_pure_and_last_login_never_set_witness :
    (handled .loginOp { body := .null, claims := [], identity := "", now := 0, fresh := "f" }
        [seedStaff]).2 = [seedStaff] ∧
      (seedStaff.last_login = none ∨
        ∃ u1, u1 ∈ [seedStaff] ∧ u1.id = seedStaff.id ∧
          u1.last_login = seedStaff.last_login) := by
  constructor
  · exact login_pure_and_last_login_never_set.1
      { body := .null, claims := [], identity := "", now := 0, fresh := "f" } [seedStaff]
  · refine login_pure_and_last_login_never_set.2 AuthOp.checkAdminOp
      { body := .null, claims := [], identity := "", now := 0, fresh := "f" }
      [seedStaff] seedStaff ?_
    show seedStaff ∈ (handled _ _ _).2
    exact List.mem_singleton.mpr rfl

theorem login_ok_shaped (now : Nat) (st : Store) (body : Json) (r : Resp) (st2 : Store)
    (h : login now st body = .ok (r, st2)) :
    errorStructured r = true ∧ r.status ∈ [200, 201, 400, 401, 403, 404, 500] := by
  unfold login at h
  repeat' (first | (split at h) | (simp only [] at h))
  all_goals try (simp only [Except.ok.injEq, Prod.mk.injEq] at h; rw [← h.1])
  all_goals try cases h
  all_goals simp [errorStructured, hasKeyTop, jfind, invalidCredResp]

theorem register_ok_shaped (now : Nat) (fresh : String) (st : Store) (body : Json)
    (r : Resp) (st2 : Store) (h : register now fresh st body = .ok (r, st2)) :
    errorStructured r = true ∧ r.status ∈ [200, 201, 400, 401, 403, 404, 500] := by
  unfold register at h
  repeat' (first | (split at h) | (simp only [] at h))
  all_goals try (simp only [Except.ok.injEq, Prod.mk.injEq] at h; rw [← h.1])
  all_goals try cases h
  all_goals simp [errorStructured, hasKeyTop, jfind]

theorem bootstrap_ok_shaped (now : Nat) (fresh : String) (st : Store) (body : Json)
    (r : Resp) (st2 : Store) (h : register_first_admin now fresh st body = .ok (r, st2)) :
    errorStructured r = true ∧ r.status ∈ [200, 201, 400, 401, 403, 404, 500] := by
  unfold register_first_admin at h
  repeat' (first | (split at h) | (simp only [] at h))
  all_goals try (simp only [Except.ok.injEq, Prod.mk.injEq] at h; rw [← h.1])
  all_goals try cases h
  all_goals simp [errorStructured, hasKeyTop, jfind]

theorem update_profile_ok_shaped (now : Nat) (st : Store) (idt : String) (body : Json)
    (r : Resp) (st2 : Store) (h : update_profile now st idt body = .ok (r, st2)) :
    errorStructured r = true ∧ r.status ∈ [200, 201, 400, 401, 403, 404, 500] := by
  unfold update_profile at h
  repeat' (first | (split at h) | (simp only [] at h))
  all_goals try (simp only [Except.ok.injEq, Prod.mk.injEq] at h; rw [← h.1])
  all_goals try cases h
  all_goals simp [errorStructured, hasKeyTop, jfind]

theorem get_profile_shaped (st : Store) (idt : String) :
    errorStructured (get_profile st idt).1 = true ∧
      (get_profile st idt).1.status ∈ [200, 201, 400, 401, 403, 404, 500] := by
  unfold get_profile
  split
  all_goals simp [errorStructured, hasKeyTop, jfind]

theorem get_users_shaped (claims : List (String × Json)) (st : Store) :
    errorStructured (get_users claims st).1 = true ∧
      (get_users claims st).1.status ∈ [200, 201, 400, 401, 403, 404, 500] := by
  unfold get_users
  split
  all_goals simp [errorStructured, hasKeyTop, jfind, forbiddenBody]

/-- C4 (confirmed): every Auth Service operation at the boundary, on
every store and every request context (bodies of any JSON shape, null
included, wrongly typed fields included), returns a response whose
status is in the taxonomy and whose body, for every error status,
is an object carrying an error or msg field; Python-level exceptions
raised inside a handler are mapped by the application error handler to
the structured 500 response, so no request escapes unanswered. -/
theorem operations_total_structured (op : AuthOp) (ctx : Ctx) (st : Store) :
    errorStructured (handled op ctx st).1 = true ∧
    (handled op ctx st).1.status ∈ [200, 201, 400, 401, 403, 404, 500] := by
  cases op with
  | loginOp =>
    unfold handled dispatch
    cases hd : login ctx.now st ctx.body with
    | error e => simp [internalErrorResp, errorStructured, hasKeyTop, jfind]
    | ok pr =>
      obtain ⟨r, st2⟩ := pr
      simpa using login_ok_shaped ctx.now st ctx.body r st2 hd
  | logoutOp =>
    simp [handled, dispatch, logout, errorStructured]
  | registerOp =>
    unfold handled dispatch
    cases hd : register ctx.now ctx.fresh st ctx.body with
    | error e => simp [internalErrorResp, errorStructured, hasKeyTop, jfind]
    | ok pr =>
      obtain ⟨r, st2⟩ := pr
      simpa using register_ok_shaped ctx.now ctx.fresh st ctx.body r st2 hd
  | bootstrapOp =>
    unfold handled dispatch
    cases hd : register_first_admin ctx.now ctx.fresh st ctx.body with
    | error e => simp [internalErrorResp, errorStructured, hasKeyTop, jfind]
    | ok pr =>
      obtain ⟨r, st2⟩ := pr
      simpa using bootstrap_ok_shaped ctx.now ctx.fresh st ctx.body r st2 hd
  | getProfileOp =>
    unfold handled dispatch
    simpa using get_profile_shaped st ctx.identity
  | updateProfileOp =>
    unfold handled dispatch
    cases hd : update_profile ctx.now st ctx.identity ctx.body with
    | error e => simp [internalErrorResp, errorStructured, hasKeyTop, jfind]
    | ok pr =>
      obtain ⟨r, st2⟩ := pr
      simpa using update_profile_ok_shaped ctx.now st ctx.identity ctx.body r st2 hd
  | listUsersOp =>
    unfold handled dispatch
    simpa using get_users_shaped ctx.claims st
  | checkAdminOp =>
    simp [handled, dispatch, check_admin, errorStructured]

theorem noPasswordKey_bindable (j : Json) (h : isBindable j = true) :
    noPasswordKey j = true := by
  cases j <;> simp_all [isBindable, noPasswordKey]

theorem noPasswordKey_bindableOpt (j : Json) (h : isBindableOpt j = true) :
    noPasswordKey j = true := by
  cases j <;> simp_all [isBindable, isBindableOpt, noPasswordKey]

theorem noPasswordKey_as_dict (u : User) (h : WFUser u = true) :
    noPasswordKey u.as_dict = true := by
  unfold WFUser at h
  simp only [Bool.and_eq_true] at h
  obtain ⟨⟨h1, h2⟩, h3⟩ := h
  unfold User.as_dict
  cases hll : u.last_login <;>
    simp [noPasswordKey, noPasswordKeyObj, noPasswordKey_bindable _ h1,
      noPasswordKey_bindableOpt _ h2, noPasswordKey_bindableOpt _ h3]

theorem noPasswordKey_userProjection (u : User) (h : WFUser u = true) :
    noPasswordKey (userProjection u) = true := by
  unfold WFUser at h
  simp only [Bool.and_eq_true] at h
  obtain ⟨⟨h1, h2⟩, h3⟩ := h
  unfold userProjection
  simp [noPasswordKey, noPasswordKeyObj, noPasswordKey_bindable _ h1,
    noPasswordKey_bindableOpt _ h2, noPasswordKey_bindableOpt _ h3]

theorem noPasswordKeyArr_map (st : Store) (h : WFStore st = true) :
    noPasswordKeyArr (st.map User.as_dict) = true := by
  induction st with
  | nil => rfl
  | cons u rest ih =>
    simp only [WFStore, List.all_cons, Bool.and_eq_true] at h
    simp [noPasswordKeyArr, noPasswordKey_as_dict u h.1, ih h.2]

theorem WFStore_mem (st : Store) (u : User) (hwf : WFStore st = true) (hm : u ∈ st) :
    WFUser u = true := by
  simp only [WFStore, List.all_eq_true] at hwf
  exact hwf u hm

theorem findByEmailJ_mem (st : Store) (j : Json) (u : User)
    (h : findByEmailJ st j = some u) : u ∈ st := by
  cases j <;> simp [findByEmailJ] at h
  exact List.mem_of_find?_eq_some h

theorem findById_mem (st : Store) (i : String) (u : User)
    (h : findById st i = some u) : u ∈ st :=
  List.mem_of_find?_eq_some h

theorem noPasswordKey_login_body (u : User) (h : WFUser u = true) :
    noPasswordKey (Json.obj [("message", .str "Login successful"),
      ("user", userProjection u)]) = true := by
  show noPasswordKeyObj [("message", .str "Login successful"),
    ("user", userProjection u)] = true
  simp only [noPasswordKeyObj]
  rw [noPasswordKey_userProjection u h]
  decide

theorem noPasswordKey_bootstrap_body (fresh e : String) (a : User)
    (h : WFUser a = true) :
    noPasswordKey (Json.obj [("msg", .str "First admin registered successfully"),
      ("admin_id", .str fresh), ("email", .str e),
      ("user", userProjection a)]) = true := by
  show noPasswordKeyObj [("msg", .str "First admin registered successfully"),
    ("admin_id", .str fresh), ("email", .str e), ("user", userProjection a)] = true
  simp only [noPasswordKeyObj]
  rw [noPasswordKey_userProjection a h]
  simp [noPasswordKey]

theorem noPasswordKey_update_body (u2 : User) (h : WFUser u2 = true) :
    noPasswordKey (Json.obj [("msg", .str "Profile updated successfully"),
      ("user", u2.as_dict)]) = true := by
  show noPasswordKeyObj [("msg", .str "Profile updated successfully"),
    ("user", u2.as_dict)] = true
  simp only [noPasswordKeyObj]
  rw [noPasswordKey_as_dict u2 h]
  decide

theorem login_ok_nopass (now : Nat) (st : Store) (body : Json) (r : Resp) (st2 : Store)
    (hwf : WFStore st = true) (h : login now st body = .ok (r, st2)) :
    noPasswordKey r.body = true := by
  unfold login at h
  split at h
  · rename_i fs
    simp only [] at h
    split at h
    · simp only [Except.ok.injEq, Prod.mk.injEq] at h
      rw [← h.1]
      simp [noPasswordKey, noPasswordKeyObj]
    · split at h
      · simp only [Except.ok.injEq, Prod.mk.injEq] at h
        rw [← h.1]
        simp [invalidCredResp, noPasswordKey, noPasswordKeyObj]
      · rename_i u hu
        split at h
        · cases h
        · split at h
          · simp only [Except.ok.injEq, Prod.mk.injEq] at h
            rw [← h.1]
            simp [invalidCredResp, noPasswordKey, noPasswordKeyObj]
          · split at h
            · simp only [Except.ok.injEq, Prod.mk.injEq] at h
              rw [← h.1]
              simp [noPasswordKey, noPasswordKeyObj]
            · simp only [Except.ok.injEq, Prod.mk.injEq] at h
              rw [← h.1]
              exact noPasswordKey_login_body u
                (WFStore_mem st u hwf (findByEmailJ_mem st _ u hu))
  · cases h

theorem register_ok_nopass (now : Nat) (fresh : String) (st : Store) (body : Json)
    (r : Resp) (st2 : Store) (h : register now fresh st body = .ok (r, st2)) :
    noPasswordKey r.body = true := by
  unfold register at h
  repeat' (first | (split at h) | (simp only [] at h))
  all_goals try (simp only [Except.ok.injEq, Prod.mk.injEq] at h; rw [← h.1])
  all_goals try cases h
  all_goals simp [noPasswordKey, noPasswordKeyObj]

theorem bootstrap_ok_nopass (now : Nat) (fresh : String) (st : Store) (body : Json)
    (r : Resp) (st2 : Store) (h : register_first_admin now fresh st body = .ok (r, st2)) :
    noPasswordKey r.body = true := by
  unfold register_first_admin at h
  split at h
  · simp only [Except.ok.injEq, Prod.mk.injEq] at h
    rw [← h.1]
    simp [noPasswordKey, noPasswordKeyObj]
  · split at h
    · rename_i fs
      simp only [] at h
      split at h
      · simp only [Except.ok.injEq, Prod.mk.injEq] at h
        rw [← h.1]
        simp [noPasswordKey, noPasswordKeyObj]
      · split at h
        · simp only [Except.ok.injEq, Prod.mk.injEq] at h
          rw [← h.1]
          simp [noPasswordKey, noPasswordKeyObj]
        · split at h
          · simp only [Except.ok.injEq, Prod.mk.injEq] at h
            rw [← h.1]
            simp [noPasswordKey, noPasswordKeyObj]
          · split at h
            · cases h
            · split at h
              · split at h
                · cases h
                · rename_i hbind
                  simp only [Except.ok.injEq, Prod.mk.injEq] at h
                  rw [← h.1]
                  simp at hbind
                  apply noPasswordKey_bootstrap_body
                  simp [WFUser, isBindableOpt, hbind]
              · cases h
    · cases h

theorem update_profile_ok_nopass (now : Nat) (st : Store) (idt : String) (body : Json)
    (r : Resp) (st2 : Store) (h : update_profile now st idt body = .ok (r, st2)) :
    noPasswordKey r.body = true := by
  unfold update_profile at h
  split at h
  · simp only [Except.ok.injEq, Prod.mk.injEq] at h
    rw [← h.1]
    simp [noPasswordKey, noPasswordKeyObj]
  · rename_i u hu
    split at h
    · cases h
    · split at h
      · cases h
      · split at h
        · cases h
        · split at h
          · cases h
          · split at h
            · cases h
            · split at h
              · cases h
              · simp only [] at h
                split at h
                · cases h
                · rename_i hbind
                  simp only [Except.ok.injEq, Prod.mk.injEq] at h
                  rw [← h.1]
                  simp at hbind
                  apply noPasswordKey_update_body
                  simp [WFUser, hbind.1.1, hbind.1.2, hbind.2]

/-- C7 (confirmed): no response of any Auth Service operation, success
or error, on any well-formed store, contains a password field anywhere
in its JSON body: the stored hash is never serialized outward. -/
theorem responses_never_contain_password (op : AuthOp) (ctx : Ctx) (st : Store)
    (hwf : WFStore st = true) :
    noPasswordKey (handled op ctx st).1.body = true := by
  cases op with
  | loginOp =>
    unfold handled dispatch
    cases hd : login ctx.now st ctx.body with
    | error e => simp [internalErrorResp, noPasswordKey, noPasswordKeyObj]
    | ok pr =>
      obtain ⟨r, st2⟩ := pr
      simpa using login_ok_nopass ctx.now st ctx.body r st2 hwf hd
  | logoutOp =>
    simp [handled, dispatch, logout, noPasswordKey, noPasswordKeyObj]
  | registerOp =>
    unfold handled dispatch
    cases hd : register ctx.now ctx.fresh st ctx.body with
    | error e => simp [internalErrorResp, noPasswordKey, noPasswordKeyObj]
    | ok pr =>
      obtain ⟨r, st2⟩ := pr
      simpa using register_ok_nopass ctx.now ctx.fresh st ctx.body r st2 hd
  | bootstrapOp =>
    unfold handled dispatch
    cases hd : register_first_admin ctx.now ctx.fresh st ctx.body with
    | error e => simp [internalErrorResp, noPasswordKey, noPasswordKeyObj]
    | ok pr =>
      obtain ⟨r, st2⟩ := pr
      simpa using bootstrap_ok_nopass ctx.now ctx.fresh st ctx.body r st2 hd
  | getProfileOp =>
    unfold handled dispatch
    cases hf : findById st ctx.identity with
    | none => simp [get_profile, hf, noPasswordKey, noPasswordKeyObj]
    | some u =>
      have hm : WFUser u = true := WFStore_mem st u hwf (findById_mem st _ u hf)
      simp [get_profile, hf, noPasswordKey_as_dict u hm]
  | updateProfileOp =>
    unfold handled dispatch
    cases hd : update_profile ctx.now st ctx.identity ctx.body with
    | error e => simp [internalErrorResp, noPasswordKey, noPasswordKeyObj]
    | ok pr =>
      obtain ⟨r, st2⟩ := pr
      simpa using update_profile_ok_nopass ctx.now st ctx.identity ctx.body r st2 hd
  | listUsersOp =>
    unfold handled dispatch
    by_cases hc : isStrEq (jlookup ctx.claims "role") "admin" = true
    · simp [get_users, hc, noPasswordKey, noPasswordKeyArr_map st hwf]
    · simp [get_users, hc, forbiddenBody, noPasswordKey, noPasswordKeyObj]
  | checkAdminOp =>
    simp [handled, dispatch, check_admin, noPasswordKey, noPasswordKeyObj]

/-- C7 witness: the password-free body property applied to a concrete
operation on a concrete well-formed store. -/
theorem responses_never_contain_password_witness :
    WFStore [seedStaff] = true ∧
      noPasswordKey
        (handled .listUsersOp
          { body := .null, claims := [("role", .str "admin")], identity := "",
            now := 0, fresh := "f" } [seedStaff]).1.body = true :=
  ⟨by decide,
    responses_never_contain_password .listUsersOp
      { body := .null, claims := [("role", .str "admin")], identity := "",
        now := 0, fresh := "f" } [seedStaff] (by decide)⟩
